import Mathlib

/-!
Verification of the `Person` extension type defined in `src/mymodule.c`.

The C source defines a single CPython extension type `mymodule.Person` with
  * two `PyObject *` fields `first_name` and `last_name` (exposed through
    `PyMemberDef` entries of kind `T_OBJECT_EX`, writable, deletable),
  * one C `int` field `number` (exposed through a `T_INT` member),
  * `tp_new = Person_new` (installs defaults "John"/"Doe"/42),
  * `tp_init = Person_init` (parses `"|OOi"` with keywords
    `first_name`, `last_name`, `number`; the `i` slot writes straight
    into `&self->number`),
  * `tp_str = Person_str` and the method `name()` (`Person_name`).

The embedding below models the Python values that can appear in these
fields as `PyValue` (text or integer suffices for every claim), the record
state as `Person`, and each C entry point as a Lean function.  The
behaviour of the CPython API functions the source calls
(`PyArg_ParseTupleAndKeywords`, `PyMember_GetOne` / `PyMember_SetOne` for
`T_OBJECT_EX` and `T_INT`) is embedded following their documented
semantics, since those library routines are part of the host ABI the
source programs against:
  * `PyArg_ParseTupleAndKeywords(args, kwds, "|OOi", kwlist, ...)`
    first rejects `nargs + nkwargs > 3` ("takes at most 3 arguments"),
    then walks the three parameters in order; a parameter supplied both
    positionally and by keyword is an error; an `O` slot accepts any
    object; an `i` slot requires an integer (TypeError otherwise) in the
    C-int range (OverflowError otherwise) and writes the converted value
    through the output pointer immediately; after the walk, any keyword
    not in the keyword list raises "invalid keyword argument".  Because
    the `i` output pointer is `&self->number`, a converted `number`
    followed by an extraneous-keyword failure leaves `self->number`
    already overwritten.
  * a `T_OBJECT_EX` member read fails with `AttributeError` when the slot
    is NULL; a write accepts any object with no type check; a delete
    fails with `AttributeError` when the slot is NULL and otherwise sets
    it to NULL.
  * a `T_INT` member write requires an integer (TypeError otherwise)
    whose value fits a C `long` (OverflowError otherwise) and stores it
    truncated to the C `int` width (64-bit platform: `long` is 64 bits,
    `int` is 32); a read returns the stored value exactly.
-/

namespace Mymodule

/-- A Python object as far as this module can observe one: a text value or
an integer.  (Arbitrary further objects behave like either of these for
every operation modelled here: `O` slots and `T_OBJECT_EX` writes accept
anything, and the `i` slot / `T_INT` writes reject every non-integer.) -/
inductive PyValue where
  | str (s : String)
  | int (n : Int)
  deriving DecidableEq, Repr

/-- The state of a `struct Person` (src/mymodule.c lines 102-107):
`first_name` and `last_name` are `PyObject *` slots which may be NULL
(`none`), `number` is a C `int`. -/
structure Person where
  first_name : Option PyValue
  last_name : Option PyValue
  number : Int
  deriving DecidableEq, Repr

/-- The failure conditions surfaced by the modelled operations, tagged by
the spec's taxonomy: `typeMismatch` (TypeError from a wrong-typed value),
`overflow` (OverflowError), `arity` ("takes at most 3 arguments"),
`duplicateArg` ("argument given by name and position"), `extraKeyword`
("invalid keyword argument"), `attributeError` (AttributeError naming the
absent member, the code's MissingFieldError). -/
inductive PyError where
  | typeMismatch
  | overflow
  | arity
  | duplicateArg
  | extraKeyword
  | attributeError (member : String)
  deriving DecidableEq, Repr

/-- Largest C `int` value (32-bit). -/
def INT_MAX : Int := 2 ^ 31 - 1

/-- Smallest C `int` value (32-bit). -/
def INT_MIN : Int := -(2 ^ 31)

/-- Largest C `long` value (64-bit platform). -/
def LONG_MAX : Int := 2 ^ 63 - 1

/-- Smallest C `long` value (64-bit platform). -/
def LONG_MIN : Int := -(2 ^ 63)

/-- Two's-complement truncation of an integer to the C `int` width, the
effect of the `(int)long_val` cast in `PyMember_SetOne` for `T_INT`. -/
def truncToInt32 (n : Int) : Int := (n + 2 ^ 31) % 2 ^ 32 - 2 ^ 31

/-- The keyword list of `Person_init` (src/mymodule.c line 147). -/
def kwlist : List String := ["first_name", "last_name", "number"]

/-- Keyword-dictionary lookup (keys are distinct, as in a Python dict). -/
def lookupKw (kwds : List (String × PyValue)) (k : String) : Option PyValue :=
  (kwds.find? fun p => p.1 == k).map Prod.snd

/-- Fetch the argument for parameter `i` named `name`, as the main loop of
`PyArg_ParseTupleAndKeywords` does: a keyword match that is also covered
positionally is an error; otherwise the keyword value, else the positional
value, else absent. -/
def currentArg (args : List PyValue) (kwds : List (String × PyValue))
    (i : Nat) (name : String) : Except PyError (Option PyValue) :=
  match lookupKw kwds name with
  | some v => if i < args.length then .error .duplicateArg else .ok (some v)
  | none => .ok args[i]?

/-- Conversion of an argument by the `i` format unit: an integer in the
C-int range converts to itself; an out-of-range integer raises
OverflowError; anything else raises TypeError. -/
def convertI (v : PyValue) : Except PyError Int :=
  match v with
  | .int n =>
      if n > INT_MAX then .error .overflow
      else if n < INT_MIN then .error .overflow
      else .ok n
  | _ => .error .typeMismatch

/-- Outcome of `PyArg_ParseTupleAndKeywords(args, kwds, "|OOi", ...)` as
invoked by `Person_init`: the two `O` outputs are local variables of
`Person_init` (hence returned here), the `i` output is `&self->number`
(hence `number` is the value of that field after the call, threaded from
its prior value `n0`). -/
structure ParseResult where
  first_name : Option PyValue
  last_name : Option PyValue
  number : Int
  err : Option PyError
  deriving DecidableEq, Repr

/-- True when every supplied keyword is in the keyword list; checked after
the parameter walk ("invalid keyword argument" otherwise). -/
def extraneousOk (kwds : List (String × PyValue)) : Bool :=
  kwds.all fun p => kwlist.contains p.1

/-- `PyArg_ParseTupleAndKeywords(args, kwds, "|OOi", kwlist, &first_name,
&last_name, &self->number)` (src/mymodule.c line 149), with `n0` the value
of `self->number` on entry.  Order of effects follows the C routine: arity
check, then the three parameters in order (conversion writing through the
output pointer as soon as it succeeds), then the extraneous-keyword
check. -/
def parseTupleAndKeywords (args : List PyValue) (kwds : List (String × PyValue))
    (n0 : Int) : ParseResult :=
  if args.length + kwds.length > 3 then ⟨none, none, n0, some .arity⟩
  else
    match currentArg args kwds 0 "first_name" with
    | .error e => ⟨none, none, n0, some e⟩
    | .ok fn =>
      match currentArg args kwds 1 "last_name" with
      | .error e => ⟨fn, none, n0, some e⟩
      | .ok ln =>
        match currentArg args kwds 2 "number" with
        | .error e => ⟨fn, ln, n0, some e⟩
        | .ok none =>
            if extraneousOk kwds then ⟨fn, ln, n0, none⟩
            else ⟨fn, ln, n0, some .extraKeyword⟩
        | .ok (some v) =>
          match convertI v with
          | .error e => ⟨fn, ln, n0, some e⟩
          | .ok n =>
              if extraneousOk kwds then ⟨fn, ln, n, none⟩
              else ⟨fn, ln, n, some .extraKeyword⟩

/-- `Person_new` (src/mymodule.c lines 116-139): allocate and install the
defaults `first_name="John"`, `last_name="Doe"`, `number=42`.  (The
allocation-failure paths return no object at all and are outside the
record model.) -/
def Person_new : Person :=
  { first_name := some (.str "John"), last_name := some (.str "Doe"), number := 42 }

/-- `Person_init` (src/mymodule.c lines 141-175): parse the arguments; on
parse failure return the error (the C function returns -1) with the state
as the parse left it; on success overwrite `first_name` / `last_name`
exactly when the corresponding argument was supplied (the `tmp` /
`Py_INCREF` / `Py_XDECREF` dance is reference management with no effect on
the stored value). -/
def Person_init (self : Person) (args : List PyValue)
    (kwds : List (String × PyValue)) : Person × Option PyError :=
  let r := parseTupleAndKeywords args kwds self.number
  match r.err with
  | some e => ({ self with number := r.number }, some e)
  | none =>
      let s1 := { self with number := r.number }
      let s2 := match r.first_name with
        | some fn => { s1 with first_name := some fn }
        | none => s1
      let s3 := match r.last_name with
        | some ln => { s2 with last_name := some ln }
        | none => s2
      (s3, none)

/-- Calling the type `mymodule.Person(...)`: `tp_new` then `tp_init`; when
`tp_init` fails the interpreter discards the fresh object and the caller
observes only the raised error, never a record. -/
def Person_construct (args : List PyValue) (kwds : List (String × PyValue)) :
    Except PyError Person :=
  match Person_init Person_new args kwds with
  | (self, none) => .ok self
  | (_, some e) => .error e

/-- Rendering of a field value by the `%S` / `%d` format units of
`PyUnicode_FromFormat`: `str()` of the object, i.e. the text itself for a
text value and base-10 digits for an integer. -/
def pyStr : PyValue → String
  | .str s => s
  | .int n => toString n

/-- `Person_str` (src/mymodule.c lines 177-180):
`PyUnicode_FromFormat("Person(first_name=%S, last_name=%S, number=%d)", ...)`.
`%S` with a NULL pointer is undefined behaviour, so the rendering is only
defined (`some`) when both name slots are present. -/
def Person_str (self : Person) : Option String :=
  match self.first_name, self.last_name with
  | some fn, some ln =>
      some ("Person(first_name=" ++ pyStr fn ++ ", last_name=" ++ pyStr ln ++
        ", number=" ++ toString self.number ++ ")")
  | _, _ => none

/-- `Person_name` (src/mymodule.c lines 208-222): AttributeError naming
`first_name` when that slot is NULL, then AttributeError naming
`last_name` when that slot is NULL, else
`PyUnicode_FromFormat("%S %S", first_name, last_name)`. -/
def Person_name (self : Person) : Except PyError String :=
  match self.first_name with
  | none => .error (.attributeError "first_name")
  | some fn =>
      match self.last_name with
      | none => .error (.attributeError "last_name")
      | some ln => .ok (pyStr fn ++ " " ++ pyStr ln)

/-- Read of the `first_name` member (`T_OBJECT_EX`, src/mymodule.c lines
183-189): AttributeError when the slot is NULL, else the stored object. -/
def getMember_first_name (self : Person) : Except PyError PyValue :=
  match self.first_name with
  | none => .error (.attributeError "first_name")
  | some v => .ok v

/-- Read of the `last_name` member (`T_OBJECT_EX`). -/
def getMember_last_name (self : Person) : Except PyError PyValue :=
  match self.last_name with
  | none => .error (.attributeError "last_name")
  | some v => .ok v

/-- Read of the `number` member (`T_INT`): always the stored value. -/
def getMember_number (self : Person) : Int := self.number

/-- Write of the `first_name` member: a `T_OBJECT_EX` write performs no
type check and stores any object. -/
def setMember_first_name (self : Person) (v : PyValue) : Except PyError Person :=
  .ok { self with first_name := some v }

/-- Write of the `last_name` member: no type check, stores any object. -/
def setMember_last_name (self : Person) (v : PyValue) : Except PyError Person :=
  .ok { self with last_name := some v }

/-- Write of the `number` member (`T_INT`): TypeError for a non-integer,
OverflowError for an integer outside the C `long` range, otherwise store
the value truncated to the C `int` width. -/
def setMember_number (self : Person) (v : PyValue) : Except PyError Person :=
  match v with
  | .int n =>
      if n > LONG_MAX then .error .overflow
      else if n < LONG_MIN then .error .overflow
      else .ok { self with number := truncToInt32 n }
  | _ => .error .typeMismatch

/-- Deletion of the `first_name` member (`T_OBJECT_EX`, flags 0 so not
read-only): AttributeError when the slot is already NULL, else set the
slot to NULL. -/
def delMember_first_name (self : Person) : Except PyError Person :=
  match self.first_name with
  | none => .error (.attributeError "first_name")
  | some _ => .ok { self with first_name := none }

/-- Deletion of the `last_name` member (`T_OBJECT_EX`). -/
def delMember_last_name (self : Person) : Except PyError Person :=
  match self.last_name with
  | none => .error (.attributeError "last_name")
  | some _ => .ok { self with last_name := none }

/-- Deletion of the `number` member: `T_INT` members cannot be deleted
(TypeError), the state is unchanged. -/
def delMember_number (_self : Person) : Except PyError Person :=
  .error .typeMismatch

/-- The public operations available on a constructed record. -/
inductive Op where
  | readFirst
  | readLast
  | readNumber
  | writeFirst (v : PyValue)
  | writeLast (v : PyValue)
  | writeNumber (v : PyValue)
  | delFirst
  | delLast
  | delNumber
  | callName
  | callStr
  | reinit (args : List PyValue) (kwds : List (String × PyValue))
  deriving DecidableEq, Repr

/-- Whether an operation is a member deletion. -/
def Op.isDel : Op → Bool
  | .delFirst => true
  | .delLast => true
  | .delNumber => true
  | _ => false

/-- The record state after attempting an operation: reads, `str` and
`name()` do not change the state; a failed write or delete leaves the
state unchanged; a failed `reinit` leaves the state as `Person_init` left
it. -/
def applyOp (self : Person) : Op → Person
  | .readFirst => self
  | .readLast => self
  | .readNumber => self
  | .writeFirst v => match setMember_first_name self v with
      | .ok s => s
      | .error _ => self
  | .writeLast v => match setMember_last_name self v with
      | .ok s => s
      | .error _ => self
  | .writeNumber v => match setMember_number self v with
      | .ok s => s
      | .error _ => self
  | .delFirst => match delMember_first_name self with
      | .ok s => s
      | .error _ => self
  | .delLast => match delMember_last_name self with
      | .ok s => s
      | .error _ => self
  | .delNumber => match delMember_number self with
      | .ok s => s
      | .error _ => self
  | .callName => self
  | .callStr => self
  | .reinit args kwds => (Person_init self args kwds).1

/-- Both name slots hold a value. -/
def fieldsPresent (self : Person) : Prop :=
  self.first_name.isSome ∧ self.last_name.isSome

instance (self : Person) : Decidable (fieldsPresent self) :=
  inferInstanceAs (Decidable (self.first_name.isSome ∧ self.last_name.isSome))

/-- The keyword dictionary supplying exactly the given subset of the three
parameters (in declaration order, which a Python call site can realise
directly; lookup is by name, so the order is immaterial to the parse). -/
def kwOf (fn ln : Option PyValue) (n : Option Int) : List (String × PyValue) :=
  (fn.map fun v => ("first_name", v)).toList ++
  (ln.map fun v => ("last_name", v)).toList ++
  (n.map fun m => ("number", PyValue.int m)).toList

/-- `n` fits in a C `int`. -/
def inIntRange (n : Int) : Prop := INT_MIN ≤ n ∧ n ≤ INT_MAX

instance (n : Int) : Decidable (inIntRange n) :=
  inferInstanceAs (Decidable (INT_MIN ≤ n ∧ n ≤ INT_MAX))

/-- The value is a Python integer. -/
def isInt : PyValue → Bool
  | .int _ => true
  | _ => false

/-- The value is a Python text value. -/
def isText : PyValue → Bool
  | .str _ => true
  | _ => false

/-! ### Helper lemmas -/

lemma truncToInt32_of_inIntRange {n : Int} (h : inIntRange n) : truncToInt32 n = n := by
  obtain ⟨h1, h2⟩ := h
  unfold INT_MIN at h1
  unfold INT_MAX at h2
  unfold truncToInt32
  omega

lemma convertI_of_inIntRange {m : Int} (h : inIntRange m) : convertI (.int m) = .ok m := by
  obtain ⟨h1, h2⟩ := h
  unfold INT_MIN at h1
  unfold INT_MAX at h2
  simp only [convertI]
  rw [if_neg (by unfold INT_MAX; omega), if_neg (by unfold INT_MIN; omega)]

/-- Closed-form description of `Person_init`: on parse failure the name
slots are untouched and `number` is whatever the parse left there; on
success each name slot takes the supplied argument when there is one. -/
lemma Person_init_eq (self : Person) (args : List PyValue)
    (kwds : List (String × PyValue)) :
    Person_init self args kwds =
      (let r := parseTupleAndKeywords args kwds self.number
      match r.err with
      | some e => ({ self with number := r.number }, some e)
      | none =>
          ({ first_name := r.first_name.or self.first_name,
             last_name := r.last_name.or self.last_name,
             number := r.number }, none)) := by
  cases hr : parseTupleAndKeywords args kwds self.number with
  | mk fn ln num err =>
    cases err <;> cases fn <;> cases ln <;>
      simp [Person_init, hr, Option.or]

/-- The parse of the canonical keyword dictionary supplying the subset
`fn` / `ln` / `n` of the three parameters, with `n` in the C-int range. -/
lemma parse_kwOf (fn ln : Option PyValue) (n : Option Int) (n0 : Int)
    (h : ∀ m ∈ n, inIntRange m) :
    parseTupleAndKeywords [] (kwOf fn ln n) n0 =
      { first_name := fn, last_name := ln, number := n.getD n0, err := none } := by
  cases n with
  | none =>
      cases fn <;> cases ln <;>
        simp [kwOf, parseTupleAndKeywords, currentArg, lookupKw, extraneousOk, kwlist,
          List.find?]
  | some m =>
      have hm := convertI_of_inIntRange (h m rfl)
      cases fn <;> cases ln <;>
        simp [kwOf, parseTupleAndKeywords, currentArg, lookupKw, extraneousOk, kwlist,
          List.find?, hm]

lemma Person_init_preserves_present {self : Person} (h : fieldsPresent self)
    (args : List PyValue) (kwds : List (String × PyValue)) :
    fieldsPresent (Person_init self args kwds).1 := by
  rw [Person_init_eq]
  obtain ⟨h1, h2⟩ := h
  cases hr : parseTupleAndKeywords args kwds self.number with
  | mk fn ln num err =>
    cases err <;> cases fn <;> cases ln <;>
      simp_all [fieldsPresent, Option.or]

lemma Person_new_present : fieldsPresent Person_new := by
  constructor <;> rfl

lemma Person_construct_ok_present {args : List PyValue}
    {kwds : List (String × PyValue)} {p : Person}
    (h : Person_construct args kwds = .ok p) : fieldsPresent p := by
  unfold Person_construct at h
  cases hi : Person_init Person_new args kwds with
  | mk s e =>
    cases e with
    | none =>
        rw [hi] at h
        cases h
        have := Person_init_preserves_present Person_new_present args kwds
        rwa [hi] at this
    | some e => rw [hi] at h; cases h

lemma Person_str_of_present {p : Person} {fn ln : PyValue}
    (h1 : p.first_name = some fn) (h2 : p.last_name = some ln) :
    Person_str p = some ("Person(first_name=" ++ pyStr fn ++ ", last_name=" ++
      pyStr ln ++ ", number=" ++ toString p.number ++ ")") := by
  unfold Person_str
  rw [h1, h2]

/-- Initialization with the canonical keyword dictionary: every supplied
parameter overwrites its field, every omitted one leaves the field at its
current value. -/
lemma Person_init_kwOf (self : Person) (fn ln : Option PyValue) (n : Option Int)
    (h : ∀ m ∈ n, inIntRange m) :
    Person_init self [] (kwOf fn ln n) =
      ({ first_name := fn.or self.first_name, last_name := ln.or self.last_name,
         number := n.getD self.number }, none) := by
  rw [Person_init_eq, parse_kwOf fn ln n self.number h]

/-! ### Claims -/

/-- C1: Constructing a `Person` with any subset of the three parameters
(`first_name`, `last_name`, `number`), by keyword or by position, yields a
record in which every supplied field holds the supplied value and every
omitted field holds its default (`"John"`, `"Doe"`, `42`); in particular,
no arguments gives all three defaults and only `number=7` gives
`John`/`Doe`/`7`. -/
theorem c1_construct_subset_defaults :
    (∀ (fn ln : Option PyValue) (n : Option Int), (∀ m ∈ n, inIntRange m) →
      Person_construct [] (kwOf fn ln n) =
        .ok { first_name := some (fn.getD (.str "John")),
              last_name := some (ln.getD (.str "Doe")),
              number := n.getD 42 })
    ∧ (∀ (v1 v2 : PyValue) (m : Int), inIntRange m →
        Person_construct [v1, v2, .int m] [] =
          .ok { first_name := some v1, last_name := some v2, number := m }
        ∧ Person_construct [v1, v2] [] =
          .ok { first_name := some v1, last_name := some v2, number := 42 }
        ∧ Person_construct [v1] [] =
          .ok { first_name := some v1, last_name := some (.str "Doe"), number := 42 }
        ∧ Person_construct [] [] =
          .ok { first_name := some (.str "John"), last_name := some (.str "Doe"),
                number := 42 }) := by
  constructor
  · intro fn ln n h
    unfold Person_construct
    rw [Person_init_kwOf Person_new fn ln n h]
    cases fn <;> cases ln <;> rfl
  · intro v1 v2 m hm
    have hcv := convertI_of_inIntRange hm
    refine ⟨?_, ?_, ?_, ?_⟩ <;>
      simp [Person_construct, Person_init, parseTupleAndKeywords, currentArg, lookupKw,
        extraneousOk, kwlist, List.find?, Person_new, hcv]

/-- Witness for C1: only `number=7` by keyword, and a full positional
construction. -/
theorem c1_witness :
    Person_construct [] (kwOf none none (some 7)) =
      .ok { first_name := some (.str "John"), last_name := some (.str "Doe"),
            number := 7 }
    ∧ Person_construct [.str "A", .str "B", .int 3] [] =
      .ok { first_name := some (.str "A"), last_name := some (.str "B"),
            number := 3 } :=
  ⟨c1_construct_subset_defaults.1 none none (some 7) (by decide),
   (c1_construct_subset_defaults.2 (.str "A") (.str "B") 3 (by decide)).1⟩

/-- C2: every successfully constructed `Person` has both name fields
present and its textual conversion is exactly
`Person(first_name=<first_name>, last_name=<last_name>, number=<number>)`
with the names in their text form and the number in base 10. -/
theorem c2_str_format (args : List PyValue) (kwds : List (String × PyValue))
    (p : Person) (h : Person_construct args kwds = .ok p) :
    ∃ fn ln, p.first_name = some fn ∧ p.last_name = some ln ∧
      Person_str p = some ("Person(first_name=" ++ pyStr fn ++ ", last_name=" ++
        pyStr ln ++ ", number=" ++ toString p.number ++ ")") := by
  obtain ⟨h1, h2⟩ := Person_construct_ok_present h
  obtain ⟨fn, hfn⟩ := Option.isSome_iff_exists.1 h1
  obtain ⟨ln, hln⟩ := Option.isSome_iff_exists.1 h2
  exact ⟨fn, ln, hfn, hln, Person_str_of_present hfn hln⟩

/-- Witness for C2: the record constructed with Isaac/Newton/42 renders as
exactly `Person(first_name=Isaac, last_name=Newton, number=42)`. -/
theorem c2_witness :
    (∃ fn ln,
      (⟨some (.str "Isaac"), some (.str "Newton"), 42⟩ : Person).first_name = some fn ∧
      (⟨some (.str "Isaac"), some (.str "Newton"), 42⟩ : Person).last_name = some ln ∧
      Person_str ⟨some (.str "Isaac"), some (.str "Newton"), 42⟩ =
        some ("Person(first_name=" ++ pyStr fn ++ ", last_name=" ++ pyStr ln ++
          ", number=" ++ toString (42 : Int) ++ ")"))
    ∧ Person_str ⟨some (.str "Isaac"), some (.str "Newton"), 42⟩ =
        some "Person(first_name=Isaac, last_name=Newton, number=42)" :=
  ⟨c2_str_format [.str "Isaac", .str "Newton", .int 42] [] _ rfl, by decide⟩

/-- C3: for every `Person` whose `first_name` and `last_name` are present,
the zero-argument method `name()` returns first name, a single space, and
last name. -/
theorem c3_name_accessor (p : Person) (fn ln : PyValue)
    (h1 : p.first_name = some fn) (h2 : p.last_name = some ln) :
    Person_name p = .ok (pyStr fn ++ " " ++ pyStr ln) := by
  unfold Person_name
  rw [h1, h2]

/-- Witness for C3: construct with defaults, set `first_name="Ada"`, then
`name()` returns `"Ada Doe"`. -/
theorem c3_witness :
    Person_construct [] [] = .ok Person_new
    ∧ setMember_first_name Person_new (.str "Ada") =
        .ok { first_name := some (.str "Ada"), last_name := some (.str "Doe"),
              number := 42 }
    ∧ Person_name ⟨some (.str "Ada"), some (.str "Doe"), 42⟩ = .ok "Ada Doe" :=
  ⟨rfl, rfl, c3_name_accessor _ (.str "Ada") (.str "Doe") rfl rfl⟩

/-- On every parse outcome, either the `number` output is untouched, or
the parse succeeded, or it failed on an extraneous keyword (the only
failure that can come after the `i` conversion has already written
through `&self->number`). -/
lemma parse_number_eq_or (args : List PyValue) (kwds : List (String × PyValue))
    (n0 : Int) :
    (parseTupleAndKeywords args kwds n0).number = n0
    ∨ (parseTupleAndKeywords args kwds n0).err = none
    ∨ (parseTupleAndKeywords args kwds n0).err = some .extraKeyword := by
  unfold parseTupleAndKeywords
  repeat' split
  all_goals simp

/-- C4 counterexample: applying the initializer to an existing record with
`number=5` together with an invalid keyword `bogus` fails (the C routine
raises "invalid keyword argument" and `Person_init` returns -1), yet the
record's `number` field has already been overwritten with 5: a failed init
does not leave the three fields unchanged. -/
theorem c4_counterexample :
    Person_init Person_new [] [("number", .int 5), ("bogus", .int 1)] =
      ({ first_name := some (.str "John"), last_name := some (.str "Doe"),
         number := 5 }, some .extraKeyword)
    ∧ Person_new.number = 42 ∧ (5 : Int) ≠ 42 :=
  ⟨rfl, rfl, by decide⟩

/-- C4 amended: constructing with a non-integer `number` fails with a
type-mismatch error; any construction failure yields an error and no
record; and when init is applied to an existing record and fails, the two
name fields are always left unchanged and `number` is left unchanged
except when the failure is an extraneous-keyword error raised after a
supplied `number` was already converted and stored. -/
theorem c4_amended_atomicity :
    (∀ v : PyValue, isInt v = false →
      Person_construct [] [("number", v)] = .error .typeMismatch)
    ∧ (∀ (args : List PyValue) (kwds : List (String × PyValue)) (e : PyError),
        (Person_init Person_new args kwds).2 = some e →
        Person_construct args kwds = .error e)
    ∧ (∀ (self self2 : Person) (args : List PyValue)
        (kwds : List (String × PyValue)) (e : PyError),
        Person_init self args kwds = (self2, some e) →
        self2.first_name = self.first_name ∧ self2.last_name = self.last_name ∧
          (e ≠ .extraKeyword → self2.number = self.number)) := by
  refine ⟨?_, ?_, ?_⟩
  · intro v hv
    cases v with
    | str s => rfl
    | int n => simp [isInt] at hv
  · intro args kwds e h
    unfold Person_construct
    cases hi : Person_init Person_new args kwds with
    | mk s e2 =>
      rw [hi] at h
      cases e2 with
      | none => cases h
      | some e0 => cases h; rfl
  · intro self self2 args kwds e h
    rw [Person_init_eq] at h
    rcases hp : parseTupleAndKeywords args kwds self.number with ⟨fn, ln, num, err⟩
    rw [hp] at h
    cases err with
    | none => simp at h
    | some e0 =>
      simp only [Prod.mk.injEq] at h
      obtain ⟨hs, he⟩ := h
      subst hs
      refine ⟨rfl, rfl, ?_⟩
      intro hne
      have := parse_number_eq_or args kwds self.number
      rw [hp] at this
      simp only [] at this
      rcases this with h1 | h2 | h3
      · exact h1
      · cases h2
      · cases h3
        cases he
        exact absurd rfl hne

/-- Witness for C4: a non-integer `number` is rejected; four positional
arguments yield an error and no record; a failed init on a type mismatch
leaves every field unchanged. -/
theorem c4_witness :
    Person_construct [] [("number", .str "not-a-number")] = .error .typeMismatch
    ∧ Person_construct [.int 1, .int 2, .int 3, .int 4] [] = .error .arity
    ∧ (Person_new.first_name = Person_new.first_name ∧
       Person_new.last_name = Person_new.last_name ∧
       (PyError.typeMismatch ≠ PyError.extraKeyword →
         Person_new.number = Person_new.number)) :=
  ⟨c4_amended_atomicity.1 (.str "not-a-number") rfl,
   c4_amended_atomicity.2.1 [.int 1, .int 2, .int 3, .int 4] [] .arity rfl,
   c4_amended_atomicity.2.2 Person_new Person_new [] [("number", .str "x")]
     .typeMismatch rfl⟩

/-- C5 counterexample: assigning the integer 5 to `first_name` succeeds
and stores it, although 5 is not a text value — a `T_OBJECT_EX` member
write performs no type check, so assignment to the name fields does not
succeed-iff-text as claimed. -/
theorem c5_counterexample :
    setMember_first_name Person_new (.int 5) =
      .ok { first_name := some (.int 5), last_name := some (.str "Doe"),
            number := 42 }
    ∧ isText (.int 5) = false :=
  ⟨rfl, rfl⟩

/-- C5 amended: assignment to `first_name` / `last_name` performs no
validation at all and accepts any value; assignment to `number` rejects
non-integers with a type-mismatch error and accepts any integer in the C
`long` range (storing it truncated to the C `int` width); construction
likewise accepts any object for the name fields. -/
theorem c5_amended_assignment_validation :
    (∀ (p : Person) (v : PyValue),
      setMember_first_name p v = .ok { p with first_name := some v }
      ∧ setMember_last_name p v = .ok { p with last_name := some v })
    ∧ (∀ (p : Person) (v : PyValue), isInt v = false →
        setMember_number p v = .error .typeMismatch)
    ∧ (∀ (p : Person) (n : Int), LONG_MIN ≤ n → n ≤ LONG_MAX →
        setMember_number p (.int n) = .ok { p with number := truncToInt32 n })
    ∧ (∀ v : PyValue, Person_construct [] [("first_name", v)] =
        .ok { first_name := some v, last_name := some (.str "Doe"),
              number := 42 }) := by
  refine ⟨fun p v => ⟨rfl, rfl⟩, ?_, ?_, ?_⟩
  · intro p v hv
    cases v with
    | str s => rfl
    | int n => simp [isInt] at hv
  · intro p n h1 h2
    unfold LONG_MIN at h1
    unfold LONG_MAX at h2
    simp only [setMember_number]
    rw [if_neg (by unfold LONG_MAX; omega), if_neg (by unfold LONG_MIN; omega)]
  · intro v
    rfl

/-- Witness for C5 at concrete inputs. -/
theorem c5_witness :
    setMember_first_name Person_new (.int 9) =
      .ok { first_name := some (.int 9), last_name := some (.str "Doe"),
            number := 42 }
    ∧ setMember_number Person_new (.str "x") = .error .typeMismatch
    ∧ setMember_number Person_new (.int 1000) =
        .ok { Person_new with number := truncToInt32 1000 }
    ∧ Person_construct [] [("first_name", .int 9)] =
        .ok { first_name := some (.int 9), last_name := some (.str "Doe"),
              number := 42 } :=
  ⟨(c5_amended_assignment_validation.1 Person_new (.int 9)).1,
   c5_amended_assignment_validation.2.1 Person_new (.str "x") rfl,
   c5_amended_assignment_validation.2.2.1 Person_new 1000 (by decide) (by decide),
   c5_amended_assignment_validation.2.2.2 (.int 9)⟩

/-- C6 counterexample: `number` does have a range constraint — it is a C
`int`, and constructing with `number = 2^31` fails with OverflowError
instead of succeeding. -/
theorem c6_counterexample :
    Person_construct [] [("number", .int (2 ^ 31))] = .error .overflow := rfl

/-- C6 amended: `number` is a C `int`; for every integer `n` in the C-int
range `[-2^31, 2^31 - 1]`, constructing with `number = n` (or assigning
`n` to `number` after construction) succeeds and a subsequent read of
`number` returns exactly `n`; outside that range construction fails with
OverflowError. -/
theorem c6_amended_int_range (n : Int) (h : inIntRange n) :
    Person_construct [] [("number", .int n)] =
      .ok { first_name := some (.str "John"), last_name := some (.str "Doe"),
            number := n }
    ∧ (∀ p : Person, setMember_number p (.int n) = .ok { p with number := n }
        ∧ getMember_number { p with number := n } = n) := by
  constructor
  · have hkw := Person_init_kwOf Person_new none none (some n)
      (by intro m hm; simp only [Option.mem_some_iff] at hm; subst hm; exact h)
    unfold Person_construct
    rw [show [(("number" : String), PyValue.int n)] = kwOf none none (some n) from rfl,
      hkw]
    rfl
  · intro p
    obtain ⟨h1, h2⟩ := h
    unfold INT_MIN at h1
    unfold INT_MAX at h2
    constructor
    · simp only [setMember_number]
      rw [if_neg (by unfold LONG_MAX; omega), if_neg (by unfold LONG_MIN; omega),
        truncToInt32_of_inIntRange ⟨by unfold INT_MIN; omega, by unfold INT_MAX; omega⟩]
    · rfl

/-- Witness for C6 at `n = 7`. -/
theorem c6_witness :
    Person_construct [] [("number", .int 7)] =
      .ok { first_name := some (.str "John"), last_name := some (.str "Doe"),
            number := 7 }
    ∧ setMember_number Person_new (.int 7) = .ok { Person_new with number := 7 }
    ∧ getMember_number { Person_new with number := 7 } = 7 :=
  ⟨(c6_amended_int_range 7 (by decide)).1,
   ((c6_amended_int_range 7 (by decide)).2 Person_new).1,
   ((c6_amended_int_range 7 (by decide)).2 Person_new).2⟩

lemma setMember_number_names {p s : Person} {v : PyValue}
    (hs : setMember_number p v = .ok s) :
    s.first_name = p.first_name ∧ s.last_name = p.last_name := by
  cases v with
  | str s2 => cases hs
  | int m =>
      by_cases hgt : m > LONG_MAX
      · simp [setMember_number, hgt] at hs
      · by_cases hlt : m < LONG_MIN
        · simp [setMember_number, hgt, hlt] at hs
        · simp [setMember_number, hgt, hlt] at hs
          subst hs
          exact ⟨rfl, rfl⟩

lemma applyOp_preserves_present {p : Person} (h : fieldsPresent p) (op : Op)
    (hop : op.isDel = false) : fieldsPresent (applyOp p op) := by
  obtain ⟨h1, h2⟩ := h
  cases op with
  | readFirst => exact ⟨h1, h2⟩
  | readLast => exact ⟨h1, h2⟩
  | readNumber => exact ⟨h1, h2⟩
  | callName => exact ⟨h1, h2⟩
  | callStr => exact ⟨h1, h2⟩
  | writeFirst v => exact ⟨rfl, h2⟩
  | writeLast v => exact ⟨h1, rfl⟩
  | writeNumber v =>
      show fieldsPresent (match setMember_number p v with
        | .ok s => s
        | .error _ => p)
      cases hs : setMember_number p v with
      | error e => exact ⟨h1, h2⟩
      | ok s =>
          obtain ⟨e1, e2⟩ := setMember_number_names hs
          exact ⟨by rw [e1]; exact h1, by rw [e2]; exact h2⟩
  | delFirst => cases hop
  | delLast => cases hop
  | delNumber => cases hop
  | reinit args kwds => exact Person_init_preserves_present ⟨h1, h2⟩ args kwds

lemma foldl_preserves_present {p : Person} (h : fieldsPresent p) (ops : List Op)
    (hops : ∀ op ∈ ops, op.isDel = false) :
    fieldsPresent (ops.foldl applyOp p) := by
  induction ops generalizing p with
  | nil => exact h
  | cons op rest ih =>
      simp only [List.foldl_cons]
      exact ih (applyOp_preserves_present h op (hops op (List.mem_cons_self op rest)))
        (fun o ho => hops o (List.mem_cons_of_mem op ho))

/-- C7 counterexample: the interface does permit deleting `first_name`
(a writable `T_OBJECT_EX` member), and doing so on a freshly constructed
record leaves `first_name` unset — the claimed invariant fails under the
deletion operation. -/
theorem c7_counterexample :
    Person_construct [] [] = .ok Person_new
    ∧ applyOp Person_new Op.delFirst =
        { first_name := none, last_name := some (.str "Doe"), number := 42 }
    ∧ ¬ fieldsPresent (applyOp Person_new Op.delFirst) :=
  ⟨rfl, rfl, by decide⟩

/-- C7 amended: after every successful construction and under every
sequence of public operations that contains no member deletion (reads,
writes, `name()`, `str`, re-initialization — including failed ones),
`first_name` and `last_name` always hold a value; deletion of a name
field, which the interface permits, leaves that field unset. -/
theorem c7_amended_names_invariant (args : List PyValue)
    (kwds : List (String × PyValue)) (p : Person) (ops : List Op)
    (hc : Person_construct args kwds = .ok p)
    (hops : ∀ op ∈ ops, op.isDel = false) :
    fieldsPresent (ops.foldl applyOp p) :=
  foldl_preserves_present (Person_construct_ok_present hc) ops hops

/-- Witness for C7: construct with defaults, then write, read, re-init
and call `name()`; both name fields stay present. -/
theorem c7_witness :
    Person_construct [] [] = .ok Person_new
    ∧ fieldsPresent ([Op.writeFirst (.str "Ada"), Op.readNumber,
        Op.reinit [] [("number", PyValue.int 5)], Op.callName,
        Op.writeNumber (.str "oops")].foldl applyOp Person_new) :=
  ⟨rfl,
   c7_amended_names_invariant [] [] Person_new
     [Op.writeFirst (.str "Ada"), Op.readNumber,
      Op.reinit [] [("number", PyValue.int 5)], Op.callName,
      Op.writeNumber (.str "oops")] rfl (by decide)⟩

/-- C8: `name()` on a record missing `first_name` fails with an error
identifying `first_name` (checked first, whatever the state of
`last_name`); with `first_name` present but `last_name` absent it fails
identifying `last_name`; with both present it returns a value, never
taking the error branch. -/
theorem c8_name_missing_field (p : Person) :
    (p.first_name = none → Person_name p = .error (.attributeError "first_name"))
    ∧ (p.first_name ≠ none → p.last_name = none →
        Person_name p = .error (.attributeError "last_name"))
    ∧ (fieldsPresent p → ∃ s, Person_name p = .ok s) := by
  refine ⟨?_, ?_, ?_⟩
  · intro h1
    simp [Person_name, h1]
  · intro h1 h2
    obtain ⟨fn, hf⟩ := Option.ne_none_iff_exists'.mp h1
    simp [Person_name, hf, h2]
  · intro hp
    obtain ⟨hi1, hi2⟩ := hp
    obtain ⟨fn, hf⟩ := Option.isSome_iff_exists.mp hi1
    obtain ⟨ln, hl⟩ := Option.isSome_iff_exists.mp hi2
    exact ⟨pyStr fn ++ " " ++ pyStr ln, by simp [Person_name, hf, hl]⟩

/-- Witness for C8: both fields absent reports `first_name`; only
`last_name` absent reports `last_name`; the default record returns a
value. -/
theorem c8_witness :
    Person_name ⟨none, none, 0⟩ = .error (.attributeError "first_name")
    ∧ Person_name ⟨some (.str "J"), none, 0⟩ = .error (.attributeError "last_name")
    ∧ ∃ s, Person_name Person_new = .ok s :=
  ⟨(c8_name_missing_field ⟨none, none, 0⟩).1 rfl,
   (c8_name_missing_field ⟨some (.str "J"), none, 0⟩).2.1
     (Option.some_ne_none _) rfl,
   (c8_name_missing_field Person_new).2.2 (by decide)⟩

/-- C9: constructing with more than three positional arguments fails with
the arity error ("takes at most 3 arguments") and produces no record. -/
theorem c9_arity_rejection (args : List PyValue) (kwds : List (String × PyValue))
    (h : 3 < args.length) : Person_construct args kwds = .error .arity := by
  unfold Person_construct Person_init parseTupleAndKeywords
  rw [if_pos (by omega)]

/-- Witness for C9: four positional arguments are rejected. -/
theorem c9_witness :
    Person_construct [.str "a", .str "b", .str "c", .str "d"] [] =
      .error .arity :=
  c9_arity_rejection [.str "a", .str "b", .str "c", .str "d"] [] (by decide)

/-- C10: re-invoking the initializer on an existing record with a subset
of the three parameters (by keyword, or as a positional prefix) overwrites
exactly the supplied fields and leaves each omitted field holding the
record's current value, not the default. -/
theorem c10_reinit_frame :
    (∀ (p : Person) (fn ln : Option PyValue) (n : Option Int),
      (∀ m ∈ n, inIntRange m) →
      Person_init p [] (kwOf fn ln n) =
        ({ first_name := fn.or p.first_name, last_name := ln.or p.last_name,
           number := n.getD p.number }, none))
    ∧ (∀ (p : Person) (v1 v2 : PyValue) (m : Int), inIntRange m →
        Person_init p [v1] [] = ({ p with first_name := some v1 }, none)
        ∧ Person_init p [v1, v2] [] =
            ({ p with first_name := some v1, last_name := some v2 }, none)
        ∧ Person_init p [v1, v2, .int m] [] =
            (⟨some v1, some v2, m⟩, none)) := by
  constructor
  · exact fun p fn ln n h => Person_init_kwOf p fn ln n h
  · intro p v1 v2 m hm
    have hcv := convertI_of_inIntRange hm
    refine ⟨?_, ?_, ?_⟩ <;>
      simp [Person_init, parseTupleAndKeywords, currentArg, lookupKw, extraneousOk,
        kwlist, List.find?, hcv]

/-- Witness for C10: after `first_name="Ada"`, re-initializing with only
`number=5` keeps Ada and the current last name and sets number to 5. -/
theorem c10_witness :
    Person_init ⟨some (.str "Ada"), some (.str "Doe"), 42⟩ []
        (kwOf none none (some 5)) =
      (⟨some (.str "Ada"), some (.str "Doe"), 5⟩, none)
    ∧ Person_init Person_new [.str "X"] [] =
        ({ Person_new with first_name := some (.str "X") }, none) :=
  ⟨c10_reinit_frame.1 ⟨some (.str "Ada"), some (.str "Doe"), 42⟩ none none
     (some 5) (by decide),
   (c10_reinit_frame.2 Person_new (.str "X") (.str "Y") 0 (by decide)).1⟩

end Mymodule
